import Mathlib

set_option maxRecDepth 20000

/-!
Shallow embedding of the data scripts of this repository:
salary_analysis.py (Ask A Manager salary survey cleaning and analysis),
download_data.py (NYC dog-license downloader and its query building), and
data_analysis.py (dog-license preprocessing).

Python floats are modelled as rationals, NaN as Option.none, Python strings
as Lean strings over their character lists (ASCII case mapping, which is all
the data uses), timestamps as integer seconds, and fallible or process-level
behaviour as Except and an explicit outcome type.
-/

/-- Case table for Python str.upper on ASCII letters. -/
def upPairs : List (Char × Char) :=
  [('a', 'A'), ('b', 'B'), ('c', 'C'), ('d', 'D'), ('e', 'E'), ('f', 'F'),
   ('g', 'G'), ('h', 'H'), ('i', 'I'), ('j', 'J'), ('k', 'K'), ('l', 'L'),
   ('m', 'M'), ('n', 'N'), ('o', 'O'), ('p', 'P'), ('q', 'Q'), ('r', 'R'),
   ('s', 'S'), ('t', 'T'), ('u', 'U'), ('v', 'V'), ('w', 'W'), ('x', 'X'),
   ('y', 'Y'), ('z', 'Z')]

/-- Case table for Python str.lower on ASCII letters. -/
def lowPairs : List (Char × Char) := upPairs.map (fun p => (p.2, p.1))

/-- Association lookup on a character table, by decidable equality. -/
def tblLookup : List (Char × Char) → Char → Option Char
  | [], _ => none
  | (k, v) :: rest, c => if c = k then some v else tblLookup rest c

/-- Uppercase one character (Python str.upper, ASCII fragment). -/
def upChar (c : Char) : Char :=
  match tblLookup upPairs c with
  | some u => u
  | none => c

/-- Lowercase one character (Python str.lower, ASCII fragment). -/
def lowChar (c : Char) : Char :=
  match tblLookup lowPairs c with
  | some u => u
  | none => c

/-- Python str.upper. -/
def upStr (s : String) : String := ⟨s.data.map upChar⟩

/-- Python str.lower. -/
def lowStr (s : String) : String := ⟨s.data.map lowChar⟩

/-- Does the haystack start with the needle (character lists). -/
def beginsWith : List Char → List Char → Bool
  | [], _ => true
  | _ :: _, [] => false
  | a :: as, b :: bs => a = b && beginsWith as bs

/-- Does the needle occur inside the haystack (Python in-operator on strings). -/
def hasSub (n : List Char) : List Char → Bool
  | [] => n.isEmpty
  | c :: t => beginsWith n (c :: t) || hasSub n t

/-- Python substring containment: strHas needle hay decides needle in hay. -/
def strHas (needle hay : String) : Bool := hasSub needle.data hay.data

/-- Python sep.join on a list of strings. -/
def joinSep (sep : String) : List String → String
  | [] => ""
  | [x] => x
  | x :: y :: rest => x ++ sep ++ joinSep sep (y :: rest)

/-- Association lookup on a string table, by decidable equality. -/
def strLookup : List (String × String) → String → Option String
  | [], _ => none
  | (k, v) :: rest, c => if c = k then some v else strLookup rest c

/-- Python str on a possibly missing value: NaN prints as the string nan. -/
def pyStr (x : Option String) : String :=
  match x with
  | some s => s
  | none => "nan"

/- ===== salary_analysis.py : parsing and conversion ===== -/

/-- Is the character an ASCII digit. -/
def isDig (c : Char) : Bool := decide (48 ≤ c.toNat) && decide (c.toNat ≤ 57)

/-- Python re.sub removing every character that is not a digit or a dot
    (the pattern keeps only backslash-d and the dot, ASCII fragment). -/
def stripNonNumeric (s : String) : String :=
  ⟨s.data.filter (fun c => isDig c || c = '.')⟩

/-- Python str.replace removing all commas and dollar signs, as applied to the
    salary_cleaned column before parsing. -/
def stripCommasDollar (s : String) : String :=
  ⟨s.data.filter (fun c => !(c = ',') && !(c = '$'))⟩

/-- Digit characters to a natural number, most significant first. -/
def digitsToNat (l : List Char) : Nat :=
  l.foldl (fun a c => a * 10 + (c.toNat - 48)) 0

/-- Python float applied to a string made of digits and dots only: it succeeds
    exactly when there is at least one digit and at most one dot, yielding the
    usual decimal value; otherwise it raises ValueError, modelled as error. -/
def pyFloat (s : String) : Except String ℚ :=
  let cs := s.data
  if !(cs.all (fun c => isDig c || c = '.')) then Except.error "ValueError"
  else if 2 ≤ (cs.filter (fun c => c = '.')).length then Except.error "ValueError"
  else if (cs.filter isDig).isEmpty then Except.error "ValueError"
  else
    let ip := cs.takeWhile (fun c => !(c = '.'))
    let fp := (cs.dropWhile (fun c => !(c = '.'))).drop 1
    Except.ok ((digitsToNat ip : ℚ) + (digitsToNat fp : ℚ) / ((10 : ℚ) ^ fp.length))

/-- parse_salary from salary_analysis.py, with the exception channel kept
    explicit: a raised, uncaught exception would surface as Except.error.
    NaN input and the strings nan and empty give NaN; otherwise every
    character except digits and dots is removed, the empty remainder gives
    NaN, and the float call sits inside a try whose except returns NaN. -/
def parse_salary (x : Option String) : Except String (Option ℚ) :=
  match x with
  | none => Except.ok none
  | some s =>
    if s = "nan" || s = "" then Except.ok none
    else
      let t := stripNonNumeric (lowStr s)
      if t = "" then Except.ok none
      else
        match pyFloat t with
        | Except.ok v => Except.ok (some v)
        | Except.error _ => Except.ok none

/-- Value of parse_salary with the (never used) exception channel dropped. -/
def parse_salary_val (x : Option String) : Option ℚ :=
  match parse_salary x with
  | Except.ok v => v
  | Except.error _ => none

/-- convert_to_usd from salary_analysis.py. The currency cell is stringified
    and uppercased; NaN or zero salary gives NaN; then the keyword groups are
    tried in source order with substring tests, first match deciding the 2021
    exchange rate, and an unmatched currency keeps the salary (assumed USD). -/
def convert_to_usd (salary_numeric : Option ℚ) (currencyRaw : String) : Option ℚ :=
  let currency := upStr currencyRaw
  match salary_numeric with
  | none => none
  | some s =>
    if s = 0 then none
    else if strHas "USD" currency || strHas "US" currency then some s
    else if strHas "GBP" currency || strHas "POUND" currency then some (s * (138 / 100))
    else if strHas "CAD" currency || strHas "CANADIAN" currency then some (s * (80 / 100))
    else if strHas "EUR" currency || strHas "EURO" currency then some (s * (118 / 100))
    else if strHas "AUD" currency || strHas "AUSTRALIAN" currency then some (s * (75 / 100))
    else some s

/- ===== salary_analysis.py : the cleaning pipeline over survey rows ===== -/

/-- One row of the survey dataframe: the raw answer columns the cleaning
    pipeline reads, and the derived columns it writes (at their defaults
    before the writing stage has run). -/
structure SurveyRow where
  salary_raw : Option String
  currency : Option String
  country : Option String
  state : Option String
  job_title : Option String
  industry : Option String
  exp_overall : Option String
  exp_field : Option String
  gender : Option String
  education : Option String
  salary_cleaned : String := ""
  salary_numeric : Option ℚ := none
  salary_usd : Option ℚ := none
  country_cleaned : String := ""
  state_cleaned : String := ""
  job_title_cleaned : String := ""
  is_software_engineer : Bool := false
  is_tech_role : Bool := false
  is_tech_industry : Bool := false
  years_experience_overall : Option ℚ := none
  years_experience_field : Option ℚ := none
  gender_cleaned : String := ""
  education_cleaned : String := ""
deriving DecidableEq

/-- Row part of clean_salary_data: stringify the salary answer, drop commas
    and dollar signs, parse, and convert to USD against the stringified,
    uppercased currency answer. -/
def clean_salary_row (r : SurveyRow) : SurveyRow :=
  let sc := stripCommasDollar (pyStr r.salary_raw)
  let sn := parse_salary_val (some sc)
  { r with
    salary_cleaned := sc
    salary_numeric := sn
    salary_usd := convert_to_usd sn (pyStr r.currency) }

/-- Band test on a possibly missing USD salary: pandas comparisons are false
    on NaN, so only a present value inside the bounds passes. -/
def salaryBandB (x : Option ℚ) : Bool :=
  match x with
  | some v => decide ((10000 : ℚ) ≤ v) && decide (v ≤ (2000000 : ℚ))
  | none => false

/-- Row filter of clean_salary_data, the band test on the salary_usd column. -/
def salaryInRange (r : SurveyRow) : Bool :=
  salaryBandB r.salary_usd

/-- clean_salary_data from salary_analysis.py: derive the salary columns on
    every row, then keep the rows whose USD salary lies in the accepted band. -/
def clean_salary_data (df : List SurveyRow) : List SurveyRow :=
  (df.map clean_salary_row).filter salaryInRange

/-- US spellings folded to UNITED STATES by clean_location_data. -/
def us_variations : List String :=
  ["US", "USA", "UNITED STATES", "UNITED STATES OF AMERICA"]

/-- Country normalization of clean_location_data: stringify, uppercase, fold
    the listed US spellings to UNITED STATES. -/
def normCountry (s : String) : String :=
  let u := upStr s
  if u ∈ us_variations then "UNITED STATES" else u

/-- state_mapping from clean_location_data, transcribed entry for entry. -/
def state_mapping : List (String × String) :=
  [("DC", "DISTRICT OF COLUMBIA"),
   ("D.C.", "DISTRICT OF COLUMBIA"),
   ("WASHINGTON DC", "DISTRICT OF COLUMBIA"),
   ("WASHINGTON, DC", "DISTRICT OF COLUMBIA"),
   ("NEW YORK", "NEW YORK"), ("NY", "NEW YORK"),
   ("CALIFORNIA", "CALIFORNIA"), ("CA", "CALIFORNIA"),
   ("TEXAS", "TEXAS"), ("TX", "TEXAS"),
   ("FLORIDA", "FLORIDA"), ("FL", "FLORIDA"),
   ("ILLINOIS", "ILLINOIS"), ("IL", "ILLINOIS"),
   ("PENNSYLVANIA", "PENNSYLVANIA"), ("PA", "PENNSYLVANIA"),
   ("OHIO", "OHIO"), ("OH", "OHIO"),
   ("GEORGIA", "GEORGIA"), ("GA", "GEORGIA"),
   ("NORTH CAROLINA", "NORTH CAROLINA"), ("NC", "NORTH CAROLINA"),
   ("MICHIGAN", "MICHIGAN"), ("MI", "MICHIGAN"),
   ("NEW JERSEY", "NEW JERSEY"), ("NJ", "NEW JERSEY"),
   ("VIRGINIA", "VIRGINIA"), ("VA", "VIRGINIA"),
   ("WASHINGTON", "WASHINGTON"), ("WA", "WASHINGTON"),
   ("ARIZONA", "ARIZONA"), ("AZ", "ARIZONA"),
   ("MASSACHUSETTS", "MASSACHUSETTS"), ("MA", "MASSACHUSETTS"),
   ("TENNESSEE", "TENNESSEE"), ("TN", "TENNESSEE"),
   ("INDIANA", "INDIANA"), ("IN", "INDIANA"),
   ("MISSOURI", "MISSOURI"), ("MO", "MISSOURI"),
   ("MARYLAND", "MARYLAND"), ("MD", "MARYLAND"),
   ("WISCONSIN", "WISCONSIN"), ("WI", "WISCONSIN"),
   ("COLORADO", "COLORADO"), ("CO", "COLORADO"),
   ("MINNESOTA", "MINNESOTA"), ("MN", "MINNESOTA"),
   ("SOUTH CAROLINA", "SOUTH CAROLINA"), ("SC", "SOUTH CAROLINA"),
   ("ALABAMA", "ALABAMA"), ("AL", "ALABAMA"),
   ("LOUISIANA", "LOUISIANA"), ("LA", "LOUISIANA"),
   ("KENTUCKY", "KENTUCKY"), ("KY", "KENTUCKY"),
   ("OREGON", "OREGON"), ("OR", "OREGON"),
   ("OKLAHOMA", "OKLAHOMA"), ("OK", "OKLAHOMA"),
   ("CONNECTICUT", "CONNECTICUT"), ("CT", "CONNECTICUT"),
   ("UTAH", "UTAH"), ("UT", "UTAH"),
   ("IOWA", "IOWA"), ("IA", "IOWA"),
   ("NEVADA", "NEVADA"), ("NV", "NEVADA"),
   ("ARKANSAS", "ARKANSAS"), ("AR", "ARKANSAS"),
   ("MISSISSIPPI", "MISSISSIPPI"), ("MS", "MISSISSIPPI"),
   ("KANSAS", "KANSAS"), ("KS", "KANSAS"),
   ("NEW MEXICO", "NEW MEXICO"), ("NM", "NEW MEXICO"),
   ("NEBRASKA", "NEBRASKA"), ("NE", "NEBRASKA"),
   ("WEST VIRGINIA", "WEST VIRGINIA"), ("WV", "WEST VIRGINIA"),
   ("IDAHO", "IDAHO"), ("ID", "IDAHO"),
   ("HAWAII", "HAWAII"), ("HI", "HAWAII"),
   ("NEW HAMPSHIRE", "NEW HAMPSHIRE"), ("NH", "NEW HAMPSHIRE"),
   ("MAINE", "MAINE"), ("ME", "MAINE"),
   ("MONTANA", "MONTANA"), ("MT", "MONTANA"),
   ("RHODE ISLAND", "RHODE ISLAND"), ("RI", "RHODE ISLAND"),
   ("DELAWARE", "DELAWARE"), ("DE", "DELAWARE"),
   ("SOUTH DAKOTA", "SOUTH DAKOTA"), ("SD", "SOUTH DAKOTA"),
   ("NORTH DAKOTA", "NORTH DAKOTA"), ("ND", "NORTH DAKOTA"),
   ("ALASKA", "ALASKA"), ("AK", "ALASKA"),
   ("VERMONT", "VERMONT"), ("VT", "VERMONT"),
   ("WYOMING", "WYOMING"), ("WY", "WYOMING")]

/-- State normalization of clean_location_data: stringify, uppercase, map
    through state_mapping, and fillna keeps unmapped values unchanged. -/
def normState (s : String) : String :=
  let u := upStr s
  match strLookup state_mapping u with
  | some v => v
  | none => u

/-- Row part of clean_location_data. -/
def clean_location_row (r : SurveyRow) : SurveyRow :=
  { r with
    country_cleaned := normCountry (pyStr r.country)
    state_cleaned := normState (pyStr r.state) }

/-- clean_location_data from salary_analysis.py, on the whole dataframe. -/
def clean_location_data (df : List SurveyRow) : List SurveyRow :=
  df.map clean_location_row

/-- software_engineer_keywords from clean_job_data. -/
def software_engineer_keywords : List String :=
  ["software engineer", "software developer", "programmer", "developer",
   "software architect", "software lead", "senior software", "principal software",
   "staff software", "software specialist", "software analyst"]

/-- tech_keywords from clean_job_data. -/
def tech_keywords : List String :=
  ["software", "developer", "engineer", "programmer", "analyst", "architect",
   "data scientist", "data engineer", "devops", "sre", "site reliability",
   "product manager", "technical", "systems", "network", "security",
   "machine learning", "ml engineer", "ai engineer", "backend", "frontend",
   "full stack", "mobile developer", "ios", "android", "web developer",
   "cloud engineer", "platform engineer", "infrastructure"]

/-- Industry keywords of the is_tech_industry flag. -/
def tech_industry_keywords : List String :=
  ["Computing or Tech", "Technology", "Software"]

/-- Row part of clean_job_data: lowercase the stringified job title, then set
    the flags by regex alternation over the keyword lists, which on these
    literal keywords is substring matching; the industry test is case
    insensitive substring matching on the stringified industry answer. -/
def clean_job_row (r : SurveyRow) : SurveyRow :=
  let jt := lowStr (pyStr r.job_title)
  { r with
    job_title_cleaned := jt
    is_software_engineer := software_engineer_keywords.any (fun k => strHas k jt)
    is_tech_role := tech_keywords.any (fun k => strHas k jt)
    is_tech_industry := tech_industry_keywords.any
      (fun k => strHas (lowStr k) (lowStr (pyStr r.industry))) }

/-- clean_job_data from salary_analysis.py, on the whole dataframe. -/
def clean_job_data (df : List SurveyRow) : List SurveyRow :=
  df.map clean_job_row

/-- experience_to_years from clean_experience_data: NaN stays NaN, otherwise
    the stringified, lowercased answer is probed for the range texts in source
    order and mapped to the midpoint value, anything else giving NaN. -/
def experience_to_years (exp : Option String) : Option ℚ :=
  match exp with
  | none => none
  | some s0 =>
    let s := lowStr s0
    if strHas "1 year or less" s then some (1 / 2)
    else if strHas "2 - 4 years" s then some 3
    else if strHas "5-7 years" s || strHas "5 - 7 years" s then some 6
    else if strHas "8 - 10 years" s then some 9
    else if strHas "11 - 20 years" s then some (31 / 2)
    else if strHas "21 - 30 years" s then some (51 / 2)
    else if strHas "31 - 40 years" s then some (71 / 2)
    else if strHas "41 years or more" s then some 45
    else none

/-- Row part of clean_experience_data. -/
def clean_experience_row (r : SurveyRow) : SurveyRow :=
  { r with
    years_experience_overall := experience_to_years r.exp_overall
    years_experience_field := experience_to_years r.exp_field }

/-- clean_experience_data from salary_analysis.py, on the whole dataframe. -/
def clean_experience_data (df : List SurveyRow) : List SurveyRow :=
  df.map clean_experience_row

/-- Gender mapping of clean_demographics. Mapping the lowercased value sends
    the listed keys to their canonical forms and everything else to NaN, and
    the following fillna restores the lowercased value there; the nan key,
    mapped to NaN then refilled, also comes back as itself. -/
def gender_map : List (String × String) :=
  [("man", "Man"), ("woman", "Woman"),
   ("non-binary", "Non-binary"), ("nonbinary", "Non-binary")]

/-- Row part of clean_demographics. -/
def clean_demographics_row (r : SurveyRow) : SurveyRow :=
  let g := lowStr (pyStr r.gender)
  { r with
    gender_cleaned :=
      match strLookup gender_map g with
      | some v => v
      | none => g
    education_cleaned := pyStr r.education }

/-- clean_demographics from salary_analysis.py, on the whole dataframe. -/
def clean_demographics (df : List SurveyRow) : List SurveyRow :=
  df.map clean_demographics_row

/-- The two dataframe attributes of SalaryDataAnalyzer. -/
structure AnalyzerState where
  df : Option (List SurveyRow)
  cleaned_df : Option (List SurveyRow)

/-- run_full_cleaning from salary_analysis.py as a state machine on the
    analyzer attributes: load_data stores the raw frame in df, the salary
    stage reads df and stores its result in cleaned_df, and each later stage
    reads cleaned_df and overwrites it, the final value being returned. -/
def run_full_cleaning (raw : List SurveyRow) (st0 : AnalyzerState) :
    AnalyzerState × Option (List SurveyRow) :=
  let st1 : AnalyzerState := { st0 with df := some raw }
  let st2 : AnalyzerState := { st1 with cleaned_df := st1.df.map clean_salary_data }
  let st3 : AnalyzerState := { st2 with cleaned_df := st2.cleaned_df.map clean_location_data }
  let st4 : AnalyzerState := { st3 with cleaned_df := st3.cleaned_df.map clean_job_data }
  let st5 : AnalyzerState := { st4 with cleaned_df := st4.cleaned_df.map clean_experience_data }
  let st6 : AnalyzerState := { st5 with cleaned_df := st5.cleaned_df.map clean_demographics }
  (st6, st6.cleaned_df)

/- ===== run_all_analyses and the downloader exception behaviour ===== -/

/-- Outcome of running a Python routine at process level: a returned value,
    an uncaught exception propagating out, or a sys.exit with a status code. -/
inductive POutcome (α : Type) where
  | ok : α → POutcome α
  | raised : String → POutcome α
  | exited : Nat → POutcome α
deriving DecidableEq

/-- Did the routine return normally. -/
def POutcome.isOk {α : Type} : POutcome α → Bool
  | POutcome.ok _ => true
  | _ => false

/-- One guarded analysis step of run_all_analyses: the try block stores the
    value, the except block prints the labelled error and stores None. -/
def catchStep (label : String) (step : Except String Int) (log : List String) :
    Option Int × List String :=
  match step with
  | Except.ok v => (some v, log)
  | Except.error e => (none, log ++ ["Error in " ++ label ++ ": " ++ e])

/-- Result slot a guarded step leaves in the results dict. -/
def stepResult (step : Except String Int) : Option Int :=
  match step with
  | Except.ok v => some v
  | Except.error _ => none

/-- Printed output a guarded step contributes. -/
def stepLog (label : String) (step : Except String Int) : List String :=
  match step with
  | Except.ok _ => []
  | Except.error e => ["Error in " ++ label ++ ": " ++ e]

/-- run_all_analyses from salary_analysis.py, abstracted over what each phase
    computes: run_full_cleaning is called outside any try, so its exception
    propagates; each of the six question analyses sits in its own try whose
    except prints the error and records None, and control always reaches the
    next step; nothing in the function exits the process. -/
def run_all_analyses (cleaning : Except String Unit)
    (q1 q2 q3 q4 q5 q6 : Except String Int) :
    POutcome (List (Option Int) × List String) :=
  match cleaning with
  | Except.error e => POutcome.raised e
  | Except.ok _ =>
    let p1 := catchStep "software engineer analysis" q1 []
    let p2 := catchStep "state analysis" q2 p1.2
    let p3 := catchStep "experience analysis" q3 p2.2
    let p4 := catchStep "industry analysis" q4 p3.2
    let p5 := catchStep "gender gap analysis" q5 p4.2
    let p6 := catchStep "education analysis" q6 p5.2
    POutcome.ok ([p1.1, p2.1, p3.1, p4.1, p5.1, p6.1], p6.2)

/-- download_data from download_data.py, abstracted over the HTTP response:
    a successful response body is returned, while both except branches print
    the error and then call sys.exit with status 1. -/
def download_data (resp : Except String String) : POutcome String :=
  match resp with
  | Except.ok body => POutcome.ok body
  | Except.error _ => POutcome.exited 1

/- ===== download_data.py : query building ===== -/

/-- filter_by_date_range from download_data.py. -/
def filter_by_date_range (start_date end_date date_field : String) : String :=
  date_field ++ " between \x27" ++ start_date ++ "T00:00:00.000\x27 and \x27"
    ++ end_date ++ "T23:59:59.999\x27"

/-- filter_by_zipcode from download_data.py. -/
def filter_by_zipcode (zipcodes : List String) : String :=
  "zipcode in (\x27" ++ joinSep "\x27, \x27" zipcodes ++ "\x27)"

/-- filter_by_breed from download_data.py. -/
def filter_by_breed (breeds : List String) : String :=
  "breedname in (\x27" ++ joinSep "\x27, \x27" breeds ++ "\x27)"

/-- filter_by_gender from download_data.py. -/
def filter_by_gender (gender : String) : String :=
  "animalgender = \x27" ++ gender ++ "\x27"

/-- get_expiring_licenses from download_data.py, with the date arithmetic of
    now plus days_ahead abstracted into the already formatted future date. -/
def get_expiring_licenses (future_date : String) : String :=
  "licenseexpireddate <= \x27" ++ future_date ++ "T23:59:59.999\x27"

/-- Parsed argparse namespace of the downloader main. A present zipcodes or
    breeds flag is carried already split on commas and stripped; an absent or
    falsy flag is none. The where flag is renamed since where is reserved. -/
structure Args where
  zipcodes : Option (List String)
  breeds : Option (List String)
  gender : Option String
  start_date : Option String
  end_date : Option String
  expiring : Option Int
  whereClause : Option String
  limit : Option Int
  offset : Option Int
  order : Option String
  select : Option String
deriving DecidableEq

/-- where_conditions list built by main, in source order: zipcodes, breeds,
    gender, date range (only when both dates are present), expiring (zero is
    falsy in the if), then the custom where clause. The expiring clause needs
    the formatted date now plus days_ahead, passed as future_date. -/
def where_conditions (a : Args) (future_date : String) : List String :=
  (match a.zipcodes with
   | some zs => [filter_by_zipcode zs]
   | none => []) ++
  (match a.breeds with
   | some bs => [filter_by_breed bs]
   | none => []) ++
  (match a.gender with
   | some g => [filter_by_gender g]
   | none => []) ++
  (match a.start_date, a.end_date with
   | some s, some e => [filter_by_date_range s e "licenseissueddate"]
   | _, _ => []) ++
  (match a.expiring with
   | some d => if d = 0 then [] else [get_expiring_licenses future_date]
   | none => []) ++
  (match a.whereClause with
   | some w => [w]
   | none => [])

/-- Python str of an integer (digits of the absolute value with a sign). -/
def intStr (n : Int) : String :=
  if n < 0 then "-" ++ (Nat.toDigits 10 n.natAbs).asString
  else (Nat.toDigits 10 n.natAbs).asString

/-- Limit entry of the parameter dict (zero counts as falsy in the if). -/
def limitParam (x : Option Int) : List (String × String) :=
  match x with
  | some n => if n = 0 then [] else [("$limit", intStr n)]
  | none => []

/-- Offset entry of the parameter dict (zero counts as falsy in the if). -/
def offsetParam (x : Option Int) : List (String × String) :=
  match x with
  | some n => if n = 0 then [] else [("$offset", intStr n)]
  | none => []

/-- Order entry of the parameter dict. -/
def orderParam (x : Option String) : List (String × String) :=
  match x with
  | some o => [("$order", o)]
  | none => []

/-- Select entry of the parameter dict. -/
def selectParam (x : Option String) : List (String × String) :=
  match x with
  | some s => [("$select", s)]
  | none => []

/-- Entries of the parameter dict other than the where clause, in insertion
    order: limit, offset, order, select when present. -/
def extraParams (a : Args) : List (String × String) :=
  limitParam a.limit ++ offsetParam a.offset ++ orderParam a.order ++
    selectParam a.select

/-- Query parameter dict assembled by main, as an association list in
    insertion order: the joined where clause when any condition exists, then
    the remaining entries. -/
def buildParams (a : Args) (future_date : String) : List (String × String) :=
  (match where_conditions a future_date with
   | [] => []
   | c :: cs => [("$where", joinSep " AND " (c :: cs))]) ++ extraParams a

/- ===== data_analysis.py : preprocess_data ===== -/

/-- The moment preprocess_data runs: the calendar year and the epoch second
    of datetime.now(). -/
structure Now where
  year : Int
  sec : Int

/-- One dog-license record, with dates as epoch seconds and the birth field
    as the year it holds in the dataset. -/
structure DogRow where
  animalbirth : Int
  licenseissueddate : Int
  licenseexpireddate : Int
  breedname : String
  animalname : String
deriving DecidableEq

/-- Columns preprocess_data derives on a record. The calendar projections
    issue_year, issue_month and issue_weekday only reformat the issue date for
    charts and are not modelled. -/
structure ProcessedDogRow where
  current_age : Int
  days_until_expiry : Int
  breedname : String
  animalname : String
deriving DecidableEq

/-- preprocess_data from data_analysis.py on one record: current_age is the
    current year minus the birth year, days_until_expiry is the days
    attribute of the timedelta from now to the expiry date, which floors the
    signed difference, and the name columns are stripped, the animal name
    also uppercased. -/
def preprocess_row (now : Now) (r : DogRow) : ProcessedDogRow :=
  { current_age := now.year - r.animalbirth
    days_until_expiry := Int.fdiv (r.licenseexpireddate - now.sec) 86400
    breedname := ⟨(r.breedname.data.dropWhile (fun c => c = ' ')).reverse.dropWhile (fun c => c = ' ') |>.reverse⟩
    animalname := upStr ⟨(r.animalname.data.dropWhile (fun c => c = ' ')).reverse.dropWhile (fun c => c = ' ') |>.reverse⟩ }

/-- preprocess_data over the whole dataframe. -/
def preprocess_data (now : Now) (df : List DogRow) : List ProcessedDogRow :=
  df.map (preprocess_row now)

/- ===== claim-side definitions ===== -/

/-- Currencies the conversion claim names. -/
inductive Currency where
  | USD | GBP | CAD | EUR | AUD | other
deriving DecidableEq

/-- Exchange-rate factor the claim assigns to each indicated currency. -/
def claimRate : Currency → ℚ
  | Currency.USD => 1
  | Currency.GBP => 138 / 100
  | Currency.CAD => 80 / 100
  | Currency.EUR => 118 / 100
  | Currency.AUD => 75 / 100
  | Currency.other => 1

/-- Modelled from the claim: the currency a survey row indicates, read off
    the uppercased currency answer by its English name or standard code, the
    unambiguous full names taking precedence over three-letter codes. -/
def indicatedCurrency (c : String) : Currency :=
  let u := upStr c
  if strHas "AUSTRALIAN" u then Currency.AUD
  else if strHas "CANADIAN" u then Currency.CAD
  else if strHas "EURO" u then Currency.EUR
  else if strHas "POUND" u then Currency.GBP
  else if strHas "USD" u then Currency.USD
  else if strHas "GBP" u then Currency.GBP
  else if strHas "CAD" u then Currency.CAD
  else if strHas "EUR" u then Currency.EUR
  else if strHas "AUD" u then Currency.AUD
  else if strHas "US" u then Currency.USD
  else Currency.other

/-- Rate convert_to_usd actually applies: the first keyword group matching
    the uppercased currency string, in source order with USD and US first,
    decides the factor, and no match keeps the salary unchanged. -/
def codeRate (c : String) : ℚ :=
  let u := upStr c
  if strHas "USD" u || strHas "US" u then 1
  else if strHas "GBP" u || strHas "POUND" u then 138 / 100
  else if strHas "CAD" u || strHas "CANADIAN" u then 80 / 100
  else if strHas "EUR" u || strHas "EURO" u then 118 / 100
  else if strHas "AUD" u || strHas "AUSTRALIAN" u then 75 / 100
  else 1

/-- Range texts experience_to_years probes for, in source order. -/
def expPatterns : List String :=
  ["1 year or less", "2 - 4 years", "5-7 years", "5 - 7 years",
   "8 - 10 years", "11 - 20 years", "21 - 30 years", "31 - 40 years",
   "41 years or more"]

/-- Salary band invariant of the cleaned dataframe. -/
def salaryOk (r : SurveyRow) : Prop :=
  ∃ v, r.salary_usd = some v ∧ (10000 : ℚ) ≤ v ∧ v ≤ (2000000 : ℚ)

/- ===== concrete fixtures used by witnesses ===== -/

/-- A survey row with a plain USD salary answer. -/
def rowUSD : SurveyRow :=
  { salary_raw := some "50,000", currency := some "USD", country := some "United States",
    state := some "NY", job_title := some "Software Engineer",
    industry := some "Computing or Tech", exp_overall := some "2 - 4 years",
    exp_field := some "2 - 4 years", gender := some "man",
    education := some "College degree" }

/-- A survey row whose job title answer is missing. -/
def rowNoTitle : SurveyRow :=
  { salary_raw := some "60000", currency := some "USD", country := some "US",
    state := none, job_title := none, industry := none, exp_overall := none,
    exp_field := none, gender := none, education := none }

/-- A downloader invocation with every filter flag set. -/
def argsEx : Args :=
  { zipcodes := some ["10001", "10002"], breeds := some ["Beagle"],
    gender := some "M", start_date := some "2020-01-01",
    end_date := some "2020-12-31", expiring := some 30,
    whereClause := some "animalname = \x27REX\x27",
    limit := some 1000, offset := some 500, order := none, select := none }

/- ===== helper lemmas ===== -/

/-- A successful character-table lookup returns a listed pair. -/
theorem tblLookup_mem {l : List (Char × Char)} {c v : Char}
    (h : tblLookup l c = some v) : (c, v) ∈ l := by
  induction l with
  | nil => simp [tblLookup] at h
  | cons p rest ih =>
    obtain ⟨k, w⟩ := p
    unfold tblLookup at h
    by_cases hc : c = k
    · rw [if_pos hc] at h
      cases h
      rw [hc]
      exact List.mem_cons_self _ _
    · rw [if_neg hc] at h
      exact List.mem_cons_of_mem _ (ih h)

/-- A successful string-table lookup returns a listed pair. -/
theorem strLookup_mem {l : List (String × String)} {c v : String}
    (h : strLookup l c = some v) : (c, v) ∈ l := by
  induction l with
  | nil => simp [strLookup] at h
  | cons p rest ih =>
    obtain ⟨k, w⟩ := p
    unfold strLookup at h
    by_cases hc : c = k
    · rw [if_pos hc] at h
      cases h
      rw [hc]
      exact List.mem_cons_self _ _
    · rw [if_neg hc] at h
      exact List.mem_cons_of_mem _ (ih h)

/-- Uppercasing a character twice is the same as once. -/
theorem upChar_idem (c : Char) : upChar (upChar c) = upChar c := by
  have key : ∀ p ∈ upPairs, tblLookup upPairs p.2 = none := by decide
  unfold upChar
  cases h : tblLookup upPairs c with
  | none =>
    dsimp only
    rw [h]
  | some u =>
    dsimp only
    have hu : tblLookup upPairs u = none := key (c, u) (tblLookup_mem h)
    rw [hu]

/-- Uppercasing a character list twice is the same as once. -/
theorem upList_idem (l : List Char) : (l.map upChar).map upChar = l.map upChar := by
  induction l with
  | nil => rfl
  | cons c t ih => simp [upChar_idem, ih]

/-- Python str.upper is idempotent. -/
theorem upStr_idem (s : String) : upStr (upStr s) = upStr s := by
  unfold upStr
  exact congrArg String.mk (upList_idem s.data)

/- ===== claim theorems ===== -/

/-- C10: the location normalizations of clean_location_data are idempotent:
    reapplying the uppercase-then-fold country normalization or the
    uppercase-then-map state normalization to its own output changes
    nothing, so every producible value is a fixed point. -/
theorem C10_location_norm_idempotent (s : String) :
    normCountry (normCountry s) = normCountry s ∧
    normState (normState s) = normState s := by
  constructor
  · by_cases h : upStr s ∈ us_variations
    · have h1 : normCountry s = "UNITED STATES" := by
        unfold normCountry
        rw [if_pos h]
      rw [h1]
      decide
    · have h1 : normCountry s = upStr s := by
        unfold normCountry
        rw [if_neg h]
      rw [h1]
      unfold normCountry
      rw [upStr_idem, if_neg h]
  · have key : ∀ p ∈ state_mapping, normState p.2 = p.2 := by decide
    cases h : strLookup state_mapping (upStr s) with
    | none =>
      have h1 : normState s = upStr s := by
        simp only [normState]
        rw [h]
      rw [h1]
      simp only [normState]
      rw [upStr_idem, h]
    | some v =>
      have h1 : normState s = v := by
        simp only [normState]
        rw [h]
      rw [h1]
      exact key (upStr s, v) (strLookup_mem h)

/-- C9: parse_salary is total: on every input, missing value, empty string,
    the string nan, or text with arbitrary symbols or several decimal points,
    it returns a number or NaN and the exception channel never fires. -/
theorem C9_parse_salary_total (x : Option String) :
    ∃ v : Option ℚ, parse_salary x = Except.ok v := by
  unfold parse_salary
  cases x with
  | none => exact ⟨none, rfl⟩
  | some s =>
    dsimp only
    split
    · exact ⟨none, rfl⟩
    · split
      · exact ⟨none, rfl⟩
      · split
        · next v _ => exact ⟨some v, rfl⟩
        · exact ⟨none, rfl⟩

/-- C3: experience_to_years sends each experience-range answer to the midpoint
    of its range, one half for a year or less and forty-five for forty-one or
    more, and sends NaN and any answer naming none of the ranges to NaN. -/
theorem C3_experience_midpoints :
    (∀ s : String, (∀ p ∈ expPatterns, strHas p (lowStr s) = false) →
      experience_to_years (some s) = none) ∧
    experience_to_years none = none ∧
    experience_to_years (some "1 year or less") = some (1 / 2) ∧
    experience_to_years (some "2 - 4 years") = some 3 ∧
    experience_to_years (some "5-7 years") = some 6 ∧
    experience_to_years (some "5 - 7 years") = some 6 ∧
    experience_to_years (some "8 - 10 years") = some 9 ∧
    experience_to_years (some "11 - 20 years") = some (31 / 2) ∧
    experience_to_years (some "21 - 30 years") = some (51 / 2) ∧
    experience_to_years (some "31 - 40 years") = some (71 / 2) ∧
    experience_to_years (some "41 years or more") = some 45 := by
  refine ⟨?_, rfl, rfl, rfl, rfl, rfl, rfl, rfl, rfl, rfl, rfl⟩
  intro s h
  have h1 := h "1 year or less" (by decide)
  have h2 := h "2 - 4 years" (by decide)
  have h3 := h "5-7 years" (by decide)
  have h4 := h "5 - 7 years" (by decide)
  have h5 := h "8 - 10 years" (by decide)
  have h6 := h "11 - 20 years" (by decide)
  have h7 := h "21 - 30 years" (by decide)
  have h8 := h "31 - 40 years" (by decide)
  have h9 := h "41 years or more" (by decide)
  simp only [experience_to_years, h1, h2, h3, h4, h5, h6, h7, h8, h9]
  rfl

/-- Witness for C3 at an input matching no experience range. -/
theorem C3_witness : experience_to_years (some "software engineer") = none :=
  C3_experience_midpoints.1 "software engineer" (by decide)

/-- C4: preprocess_data sets current_age to the current calendar year minus
    the birth year, and days_until_expiry to the floored whole number of days
    from the current moment to the expiry date, which is negative exactly
    when the expiry moment lies strictly before now. -/
theorem C4_preprocess_dates (now : Now) (r : DogRow) :
    (preprocess_row now r).current_age = now.year - r.animalbirth ∧
    86400 * (preprocess_row now r).days_until_expiry ≤
      r.licenseexpireddate - now.sec ∧
    r.licenseexpireddate - now.sec <
      86400 * (preprocess_row now r).days_until_expiry + 86400 ∧
    ((preprocess_row now r).days_until_expiry < 0 ↔
      r.licenseexpireddate < now.sec) := by
  have hfd : (preprocess_row now r).days_until_expiry =
      (r.licenseexpireddate - now.sec) / 86400 := by
    show Int.fdiv (r.licenseexpireddate - now.sec) 86400 = _
    exact Int.fdiv_eq_ediv _ (by norm_num)
  refine ⟨rfl, ?_, ?_, ?_⟩ <;> rw [hfd] <;> omega

/-- C5: clean_job_data sets is_software_engineer exactly when the lowercased
    job title contains a software-engineer keyword as a substring, sets
    is_tech_role exactly when it contains a tech keyword, and a missing job
    title leaves both flags false. -/
theorem C5_job_flags (r : SurveyRow) :
    ((clean_job_row r).is_software_engineer = true ↔
      ∃ k ∈ software_engineer_keywords,
        strHas k ((clean_job_row r).job_title_cleaned) = true) ∧
    ((clean_job_row r).is_tech_role = true ↔
      ∃ k ∈ tech_keywords, strHas k ((clean_job_row r).job_title_cleaned) = true) ∧
    ((clean_job_row r).job_title_cleaned = lowStr (pyStr r.job_title)) ∧
    (r.job_title = none →
      (clean_job_row r).is_software_engineer = false ∧
      (clean_job_row r).is_tech_role = false) := by
  refine ⟨?_, ?_, rfl, ?_⟩
  · simp [clean_job_row, List.any_eq_true]
  · simp [clean_job_row, List.any_eq_true]
  · intro h
    constructor <;> simp [clean_job_row, h] <;> decide

/-- Witness for C5 at a row with a missing job title. -/
theorem C5_witness :
    (clean_job_row rowNoTitle).is_software_engineer = false ∧
    (clean_job_row rowNoTitle).is_tech_role = false :=
  (C5_job_flags rowNoTitle).2.2.2 rfl

/-- C6: run_full_cleaning loads the frame, then runs the salary, location,
    job, experience and demographic stages in that fixed order, each stage
    consuming exactly the frame the previous stage produced, and the frame it
    returns is the one stored in cleaned_df. -/
theorem C6_pipeline_order (raw : List SurveyRow) (st0 : AnalyzerState) :
    (run_full_cleaning raw st0).2 =
      some (clean_demographics (clean_experience_data (clean_job_data
        (clean_location_data (clean_salary_data raw))))) ∧
    (run_full_cleaning raw st0).1.cleaned_df = (run_full_cleaning raw st0).2 ∧
    (run_full_cleaning raw st0).1.df = some raw :=
  ⟨rfl, rfl, rfl⟩

/-- C1 counterexample: a row answering AUSTRALIAN DOLLARS indicates AUD, yet
    convert_to_usd returns the salary unchanged instead of applying the 0.75
    factor, because the US substring test fires first inside AUSTRALIAN. -/
theorem C1_counterexample :
    convert_to_usd (some 100) "AUSTRALIAN DOLLARS" = some 100 ∧
    indicatedCurrency "AUSTRALIAN DOLLARS" = Currency.AUD ∧
    convert_to_usd (some 100) "AUSTRALIAN DOLLARS" ≠
      some (100 * claimRate (indicatedCurrency "AUSTRALIAN DOLLARS")) := by
  refine ⟨rfl, rfl, ?_⟩
  have h1 : convert_to_usd (some 100) "AUSTRALIAN DOLLARS" = some 100 := rfl
  have h2 : indicatedCurrency "AUSTRALIAN DOLLARS" = Currency.AUD := rfl
  rw [h1, h2]
  intro h
  have h3 := Option.some.inj h
  norm_num [claimRate] at h3

/-- C1 amended: for a present, nonzero parsed salary, convert_to_usd returns
    the salary times the factor of the first keyword group matching the
    uppercased currency answer, taken in source order with the USD and US
    substring tests first (so a currency text containing US, such as
    AUSTRALIAN spelled out, is treated as USD), defaulting to 1.0, and a NaN
    or zero parsed salary yields NaN. -/
theorem C1_amended_conversion (sal : Option ℚ) (c : String) :
    (∀ q : ℚ, sal = some q → q ≠ 0 →
      convert_to_usd sal c = some (q * codeRate c)) ∧
    convert_to_usd none c = none ∧
    convert_to_usd (some 0) c = none := by
  refine ⟨?_, rfl, ?_⟩
  · rintro q rfl hq
    by_cases h1 : (strHas "USD" (upStr c) || strHas "US" (upStr c)) = true
    · simp [convert_to_usd, codeRate, hq, h1]
    · by_cases h2 : (strHas "GBP" (upStr c) || strHas "POUND" (upStr c)) = true
      · simp [convert_to_usd, codeRate, hq, h1, h2]
      · by_cases h3 : (strHas "CAD" (upStr c) || strHas "CANADIAN" (upStr c)) = true
        · simp [convert_to_usd, codeRate, hq, h1, h2, h3]
        · by_cases h4 : (strHas "EUR" (upStr c) || strHas "EURO" (upStr c)) = true
          · simp [convert_to_usd, codeRate, hq, h1, h2, h3, h4]
          · by_cases h5 : (strHas "AUD" (upStr c) || strHas "AUSTRALIAN" (upStr c)) = true
            · simp [convert_to_usd, codeRate, hq, h1, h2, h3, h4, h5]
            · simp [convert_to_usd, codeRate, hq, h1, h2, h3, h4, h5]
  · show convert_to_usd (some 0) c = none
    simp [convert_to_usd]

/-- Witness for C1 amended at a GBP row. -/
theorem C1_witness : convert_to_usd (some 100) "GBP" = some (100 * codeRate "GBP") :=
  (C1_amended_conversion (some 100) "GBP").1 100 rfl (by norm_num)

/-- C2 counterexample: an exception in the cleaning phase aborts the whole
    run instead of only that step, and a failing download makes the
    downloader exit the process with status 1 instead of continuing. -/
theorem C2_counterexample :
    (run_all_analyses (Except.error "boom") (Except.ok 1) (Except.ok 2)
      (Except.ok 3) (Except.ok 4) (Except.ok 5) (Except.ok 6)).isOk = false ∧
    download_data (Except.error "connection refused") = POutcome.exited 1 :=
  ⟨rfl, rfl⟩

/-- C2 amended: each of the six analysis questions runs in its own try whose
    except prints the error and records None, aborting only that step, and
    the run returns normally; but an exception in the preceding cleaning
    phase propagates uncaught and aborts the whole run, and the downloader
    catches a download error, prints it, and exits the process with 1. -/
theorem C2_amended_error_handling (c : Except String Unit)
    (q1 q2 q3 q4 q5 q6 : Except String Int) :
    (∀ e, c = Except.error e →
      run_all_analyses c q1 q2 q3 q4 q5 q6 = POutcome.raised e) ∧
    (c = Except.ok () →
      run_all_analyses c q1 q2 q3 q4 q5 q6 =
        POutcome.ok ([stepResult q1, stepResult q2, stepResult q3, stepResult q4,
            stepResult q5, stepResult q6],
          stepLog "software engineer analysis" q1 ++ stepLog "state analysis" q2 ++
          stepLog "experience analysis" q3 ++ stepLog "industry analysis" q4 ++
          stepLog "gender gap analysis" q5 ++ stepLog "education analysis" q6)) ∧
    (∀ e, download_data (Except.error e) = POutcome.exited 1) ∧
    (∀ b, download_data (Except.ok b) = POutcome.ok b) := by
  refine ⟨?_, ?_, fun e => rfl, fun b => rfl⟩
  · rintro e rfl
    rfl
  · rintro rfl
    cases q1 <;> cases q2 <;> cases q3 <;> cases q4 <;> cases q5 <;> cases q6 <;>
      simp [run_all_analyses, catchStep, stepResult, stepLog]

/-- Witness for C2 amended: one failing question is caught and logged while
    the other five still run. -/
theorem C2_witness :
    run_all_analyses (Except.ok ()) (Except.error "divide by zero") (Except.ok 2)
      (Except.ok 3) (Except.ok 4) (Except.ok 5) (Except.ok 6) =
    POutcome.ok ([none, some 2, some 3, some 4, some 5, some 6],
      ["Error in software engineer analysis: divide by zero"]) := by
  have h := (C2_amended_error_handling (Except.ok ()) (Except.error "divide by zero")
    (Except.ok 2) (Except.ok 3) (Except.ok 4) (Except.ok 5) (Except.ok 6)).2.1 rfl
  simpa [stepResult, stepLog] using h

/-- Every limit entry carries the limit key. -/
theorem limitParam_key (x : Option Int) : ∀ p ∈ limitParam x, p.1 = "$limit" := by
  cases x with
  | none => simp [limitParam]
  | some n =>
    by_cases hn : n = 0 <;> simp [limitParam, hn]

/-- Every offset entry carries the offset key. -/
theorem offsetParam_key (x : Option Int) : ∀ p ∈ offsetParam x, p.1 = "$offset" := by
  cases x with
  | none => simp [offsetParam]
  | some n =>
    by_cases hn : n = 0 <;> simp [offsetParam, hn]

/-- Every order entry carries the order key. -/
theorem orderParam_key (x : Option String) : ∀ p ∈ orderParam x, p.1 = "$order" := by
  cases x <;> simp [orderParam]

/-- Every select entry carries the select key. -/
theorem selectParam_key (x : Option String) : ∀ p ∈ selectParam x, p.1 = "$select" := by
  cases x <;> simp [selectParam]

/-- No entry outside the where clause carries the where key. -/
theorem extraParams_not_where (a : Args) : ∀ p ∈ extraParams a, ¬ p.1 = "$where" := by
  intro p hp hw
  unfold extraParams at hp
  rcases List.mem_append.mp hp with hlo | hsel
  · rcases List.mem_append.mp hlo with hlm | hord
    · rcases List.mem_append.mp hlm with hlim | hoff
      · rw [limitParam_key a.limit p hlim] at hw
        simp at hw
      · rw [offsetParam_key a.offset p hoff] at hw
        simp at hw
    · rw [orderParam_key a.order p hord] at hw
      simp at hw
  · rw [selectParam_key a.select p hsel] at hw
    simp at hw

/-- C7: whenever at least one filter flag contributes a clause, the request
    carries exactly one where parameter, equal to the clauses joined by AND
    in the fixed source order the where_conditions list records, and the date
    range and zipcode filters produce exactly their documented clause texts,
    the zipcode clause listing each given zipcode once in order. -/
theorem C7_where_query (a : Args) (future_date : String)
    (h : where_conditions a future_date ≠ []) :
    ((buildParams a future_date).filter (fun p => p.1 == "$where")).length = 1 ∧
    strLookup (buildParams a future_date) "$where" =
      some (joinSep " AND " (where_conditions a future_date)) ∧
    (∀ s e f, filter_by_date_range s e f =
      f ++ " between \x27" ++ s ++ "T00:00:00.000\x27 and \x27" ++ e
        ++ "T23:59:59.999\x27") ∧
    (∀ zs, filter_by_zipcode zs =
      "zipcode in (\x27" ++ joinSep "\x27, \x27" zs ++ "\x27)") := by
  cases hw : where_conditions a future_date with
  | nil => exact absurd hw h
  | cons c cs =>
    refine ⟨?_, ?_, fun s e f => rfl, fun zs => rfl⟩
    · unfold buildParams
      rw [hw, List.filter_append]
      have h2 : (extraParams a).filter (fun p => p.1 == "$where") = [] := by
        rw [List.filter_eq_nil_iff]
        intro p hp
        have h3 := extraParams_not_where a p hp
        simpa using h3
      rw [h2]
      rfl
    · unfold buildParams
      rw [hw]
      show strLookup (("$where", joinSep " AND " (c :: cs)) :: extraParams a)
        "$where" = _
      unfold strLookup
      rw [if_pos rfl]

/-- Witness for C7 at an invocation setting every filter flag. -/
theorem C7_witness :
    ((buildParams argsEx "2025-01-31").filter (fun p => p.1 == "$where")).length = 1 ∧
    strLookup (buildParams argsEx "2025-01-31") "$where" =
      some (joinSep " AND " (where_conditions argsEx "2025-01-31")) :=
  ⟨(C7_where_query argsEx "2025-01-31" (by decide)).1,
   (C7_where_query argsEx "2025-01-31" (by decide)).2.1⟩

/-- C8: every row clean_salary_data returns passes the salary band test, the
    band test holds exactly when salary_usd is a present value between 10000
    and 2000000 (so never NaN), and the location, job, experience and
    demographic stages leave the salary_usd column of every row unchanged and
    neither add nor drop rows, so the final cleaned frame still passes. -/
theorem C8_salary_band (df : List SurveyRow) :
    (clean_salary_data df).all salaryInRange = true ∧
    (∀ r : SurveyRow, salaryInRange r = true ↔ salaryOk r) ∧
    (∀ d : List SurveyRow, (clean_location_data d).map (fun r => r.salary_usd) =
      d.map (fun r => r.salary_usd)) ∧
    (∀ d : List SurveyRow, (clean_job_data d).map (fun r => r.salary_usd) =
      d.map (fun r => r.salary_usd)) ∧
    (∀ d : List SurveyRow, (clean_experience_data d).map (fun r => r.salary_usd) =
      d.map (fun r => r.salary_usd)) ∧
    (∀ d : List SurveyRow, (clean_demographics d).map (fun r => r.salary_usd) =
      d.map (fun r => r.salary_usd)) ∧
    (clean_demographics (clean_experience_data (clean_job_data
      (clean_location_data (clean_salary_data df))))).all salaryInRange = true := by
  have base : (clean_salary_data df).all salaryInRange = true :=
    List.all_eq_true.mpr (fun r hr => (List.mem_filter.mp hr).2)
  have hiff : ∀ r : SurveyRow, salaryInRange r = true ↔ salaryOk r := by
    intro r
    unfold salaryInRange salaryBandB salaryOk
    cases r.salary_usd with
    | none => simp
    | some v => simp
  have presL : ∀ d : List SurveyRow,
      (clean_location_data d).map (fun r => r.salary_usd) =
        d.map (fun r => r.salary_usd) := by
    intro d
    unfold clean_location_data
    rw [List.map_map]
    rfl
  have presJ : ∀ d : List SurveyRow,
      (clean_job_data d).map (fun r => r.salary_usd) =
        d.map (fun r => r.salary_usd) := by
    intro d
    unfold clean_job_data
    rw [List.map_map]
    rfl
  have presE : ∀ d : List SurveyRow,
      (clean_experience_data d).map (fun r => r.salary_usd) =
        d.map (fun r => r.salary_usd) := by
    intro d
    unfold clean_experience_data
    rw [List.map_map]
    rfl
  have presD : ∀ d : List SurveyRow,
      (clean_demographics d).map (fun r => r.salary_usd) =
        d.map (fun r => r.salary_usd) := by
    intro d
    unfold clean_demographics
    rw [List.map_map]
    rfl
  refine ⟨base, hiff, presL, presJ, presE, presD, ?_⟩
  have hall : ∀ l : List SurveyRow,
      l.all salaryInRange = (l.map (fun r => r.salary_usd)).all salaryBandB := by
    intro l
    induction l with
    | nil => rfl
    | cons r t ih =>
      simp only [List.map_cons, List.all_cons, ih]
      rfl
  rw [hall, presD, presE, presJ, presL, ← hall]
  exact base
